import Mathlib

/-!
Verification of the MCP protocol gateway (API Gateway Lambda handler,
JSON-RPC dispatcher and dog-facts capability provider).

The embedding follows the TypeScript sources:
  lib/lambda/handlers/api-gateway-handler.ts  (createApiGatewayHandler)
  lib/lambda/mcp/request-handler.ts           (handleMcpRequest)
  lib/lambda/mcp/server-interface.ts          (IMCPServer)
  lib/lambda/servers/dog-facts/server.ts      (DogFactsServer)

JSON values after JSON.parse are modelled by an inductive Json type with
integer numerals (the tool schema declares integer bounds and every request
exercised here carries integer ids and limits).  The platform primitives
JSON.parse and fetch are modelled as explicit parameters: a parsing oracle
String to Option Json, and a fetch oracle from the requested limit to an
outcome.  JSON.stringify is modelled by keeping the response body as a
Json value (constructor HttpBody.json); the empty preflight body is the
literal empty string.
-/

/-- JSON values (numerals restricted to integers). -/
inductive Json where
  | null : Json
  | bool : Bool → Json
  | num : Int → Json
  | str : String → Json
  | arr : List Json → Json
  | obj : List (String × Json) → Json
deriving Repr

/-- First-match field lookup in a JSON object field list. -/
def lookupField (k : String) : List (String × Json) → Option Json
  | [] => none
  | (key, v) :: rest => if key = k then some v else lookupField k rest

/-- Property access on a JSON value: objects expose their fields, every
other value has no own properties (matches property access on the JSON
data reachable after JSON.parse). -/
def Json.lookup (j : Json) (k : String) : Option Json :=
  match j with
  | Json.obj fields => lookupField k fields
  | _ => none

/-- Does the character list `s` start with the character list `pat`? -/
def charsPrefix : List Char → List Char → Bool
  | [], _ => true
  | _ :: _, [] => false
  | p :: ps, c :: cs => if p = c then charsPrefix ps cs else false

/-- Does the character list `s` contain `pat` as a contiguous run? -/
def charsInfix (pat : List Char) : List Char → Bool
  | [] => charsPrefix pat []
  | c :: cs => charsPrefix pat (c :: cs) || charsInfix pat cs

/-- strContains models the JavaScript includes test on strings. -/
def strContains (s pat : String) : Bool :=
  charsInfix pat.data s.data

-- The canonical JSON-RPC error codes used by the sources
-- (ErrorCode from the protocol SDK).
namespace ErrorCode

def ParseError : Int := -32700

def InvalidRequest : Int := -32600

def MethodNotFound : Int := -32601

def InvalidParams : Int := -32602

def InternalError : Int := -32603

end ErrorCode

/-- A value thrown by JavaScript code: either an Error carrying a message,
or any other thrown value. -/
inductive JsThrown where
  | error : String → JsThrown
  | other : JsThrown
deriving Repr

/-- The message the dispatcher extracts from a thrown value:
`error instanceof Error ? error.message : "Internal failure"`. -/
def JsThrown.describe : JsThrown → String
  | JsThrown.error m => m
  | JsThrown.other => "Internal failure"

/-- The capability provider interface (IMCPServer).  The field `describe`
embeds the interface method that returns the initialization result; each
operation may throw, which the Except models.  `callTool` receives the raw
`params` value of the request (possibly absent). -/
structure IMCPServer where
  describe : Except JsThrown Json
  listTools : Except JsThrown Json
  callTool : Option Json → Except JsThrown Json

/-- One optional field of a response object: JSON.stringify drops keys
whose value is undefined, so an absent destructured value yields no key. -/
def optField (k : String) (v : Option Json) : List (String × Json) :=
  match v with
  | none => []
  | some j => [(k, j)]

/-- A dispatcher response envelope `{jsonrpc, id, <key>: payload}` with the
field order used by request-handler.ts. -/
def respEnvelope (jsonrpc id : Option Json) (key : String) (payload : Json) : Json :=
  Json.obj (optField "jsonrpc" jsonrpc ++ optField "id" id ++ [(key, payload)])

/-- A success envelope `{jsonrpc, id, result}`. -/
def successEnvelope (jsonrpc id : Option Json) (result : Json) : Json :=
  respEnvelope jsonrpc id "result" result

/-- An error envelope `{jsonrpc, id, error: {code, message}}`. -/
def errorEnvelope (jsonrpc id : Option Json) (code : Int) (message : String) : Json :=
  respEnvelope jsonrpc id "error"
    (Json.obj [("code", Json.num code), ("message", Json.str message)])

mutual

/-- String conversion of a JSON value as performed by a template literal
(String applied to the value); an absent value prints as undefined. -/
def jsDisplayVal : Json → String
  | Json.null => "null"
  | Json.bool b => if b then "true" else "false"
  | Json.num n => toString n
  | Json.str s => s
  | Json.arr xs => jsDisplayList xs
  | Json.obj _ => "[object Object]"

/-- Array toString: elements joined by commas. -/
def jsDisplayList : List Json → String
  | [] => ""
  | [x] => jsDisplayVal x
  | x :: y :: xs => jsDisplayVal x ++ "," ++ jsDisplayList (y :: xs)

end

/-- Template-literal display of a possibly-absent value. -/
def jsDisplay : Option Json → String
  | none => "undefined"
  | some j => jsDisplayVal j

/-- The dispatcher (handleMcpRequest of request-handler.ts): destructure
the request, route on the method string, wrap the provider result as a
success envelope, and convert every thrown failure into an internal-error
envelope carrying the same jsonrpc and id fields. -/
def handleMcpRequest (server : IMCPServer) (request : Json) : Json :=
  let jsonrpc := request.lookup "jsonrpc"
  let id := request.lookup "id"
  let params := request.lookup "params"
  let methodStr : Option String :=
    match request.lookup "method" with
    | some (Json.str s) => some s
    | _ => none
  if methodStr = some "initialize" then
    match server.describe with
    | Except.ok result => successEnvelope jsonrpc id result
    | Except.error e => errorEnvelope jsonrpc id ErrorCode.InternalError e.describe
  else if methodStr = some "tools/list" then
    match server.listTools with
    | Except.ok result => successEnvelope jsonrpc id result
    | Except.error e => errorEnvelope jsonrpc id ErrorCode.InternalError e.describe
  else if methodStr = some "tools/call" then
    match server.callTool params with
    | Except.ok result => successEnvelope jsonrpc id result
    | Except.error e => errorEnvelope jsonrpc id ErrorCode.InternalError e.describe
  else
    errorEnvelope jsonrpc id ErrorCode.InternalError
      ("Unknown method: " ++ jsDisplay (request.lookup "method"))

/-- Structural validation of a JSON-RPC request element, modelling the
protocol SDK validator used by the handler (a strict schema: literal
jsonrpc discriminator, id a string or an integer, method a string, params
an optional object, no other top-level keys).  The spec describes it as:
jsonrpc discriminator present, method a string, id of an accepted type. -/
def isJSONRPCRequest (j : Json) : Bool :=
  match j with
  | Json.obj fields =>
    (match lookupField "jsonrpc" fields with
     | some (Json.str s) => s = "2.0"
     | _ => false)
    && (match lookupField "id" fields with
        | some (Json.str _) => true
        | some (Json.num _) => true
        | _ => false)
    && (match lookupField "method" fields with
        | some (Json.str _) => true
        | _ => false)
    && (match lookupField "params" fields with
        | none => true
        | some (Json.obj _) => true
        | _ => false)
    && fields.all (fun kv =>
         kv.1 = "jsonrpc" || kv.1 = "id" || kv.1 = "method" || kv.1 = "params")
  | _ => false

/-- The inbound API Gateway event: HTTP verb, headers and raw body. -/
structure HttpEvent where
  httpMethod : String
  headers : List (String × String)
  body : Option String

/-- A response body: either a literal string (the empty preflight body) or
a JSON value to be serialized by JSON.stringify. -/
inductive HttpBody where
  | str : String → HttpBody
  | json : Json → HttpBody
deriving Repr

/-- The outbound API Gateway result. -/
structure HttpResult where
  statusCode : Int
  headers : List (String × String)
  body : HttpBody

/-- First-match header lookup. -/
def lookupHeader (k : String) : List (String × String) → Option String
  | [] => none
  | (key, v) :: rest => if key = k then some v else lookupHeader k rest

/-- JavaScript disjunction of two possibly-absent strings: the first
operand wins unless it is absent or empty (falsy). -/
def jsOrStr (a b : Option String) : Option String :=
  match a with
  | none => b
  | some s => if s = "" then b else some s

/-- The content type the handler sees:
headers of lower-case key content-type, or else of canonical-case key. -/
def contentTypeOf (headers : List (String × String)) : Option String :=
  jsOrStr (lookupHeader "content-type" headers) (lookupHeader "Content-Type" headers)

/-- The content-type gate: the resolved header value must exist and
contain application/json. -/
def contentTypeOk (headers : List (String × String)) : Bool :=
  match contentTypeOf headers with
  | none => false
  | some s => strContains s "application/json"

/-- A transport-level error envelope `{jsonrpc: "2.0", error: {code, message}, id: null}`
in the field order the handler writes. -/
def transportErrorEnvelope (code : Int) (message : String) : Json :=
  Json.obj [("jsonrpc", Json.str "2.0"),
            ("error", Json.obj [("code", Json.num code), ("message", Json.str message)]),
            ("id", Json.null)]

/-- A transport-level error response with the shared headers. -/
def transportErrorResult (status code : Int) (message : String) : HttpResult :=
  { statusCode := status,
    headers := [("Content-Type", "application/json"),
                ("Access-Control-Allow-Origin", "*")],
    body := HttpBody.json (transportErrorEnvelope code message) }

/-- The CORS preflight response. -/
def corsPreflightResult : HttpResult :=
  { statusCode := 200,
    headers := [("Access-Control-Allow-Origin", "*"),
                ("Access-Control-Allow-Methods", "POST, OPTIONS"),
                ("Access-Control-Allow-Headers",
                 "Content-Type, Accept, Authorization, Mcp-Session-Id, Mcp-Protocol-Version")],
    body := HttpBody.str "" }

/-- The challenge value of the WWW-Authenticate header on GET. -/
def wwwAuthenticateChallenge : String :=
  "Bearer realm=\"MCP Server\", error=\"invalid_request\", error_description=\"Authentication required\""

/-- The OAuth discovery response returned for GET requests. -/
def oauthDiscoveryResult : HttpResult :=
  { statusCode := 401,
    headers := [("Content-Type", "application/json"),
                ("Access-Control-Allow-Origin", "*"),
                ("WWW-Authenticate", wwwAuthenticateChallenge)],
    body := HttpBody.json (Json.obj
      [("error", Json.str "invalid_request"),
       ("error_description", Json.str "Authentication required")]) }

/-- The envelope synthesized for a batch element failing structural
validation. -/
def invalidRequestEnvelope : Json :=
  transportErrorEnvelope ErrorCode.InvalidRequest "Invalid JSON-RPC request"

/-- One element of the batch loop: dispatch a structurally valid element,
synthesize an invalid-request envelope otherwise. -/
def batchStep (server : IMCPServer) (request : Json) : Json :=
  if isJSONRPCRequest request then handleMcpRequest server request
  else invalidRequestEnvelope

/-- The transport adapter (createApiGatewayHandler): preflight, discovery,
verb gating, content-type enforcement, body presence and parse checks,
then the batch loop; the response body mirrors the request shape.
`parse` models the platform primitive JSON.parse (none on a parse failure). -/
def createApiGatewayHandler (server : IMCPServer) (parse : String → Option Json)
    (event : HttpEvent) : HttpResult :=
  if event.httpMethod = "OPTIONS" then
    corsPreflightResult
  else if event.httpMethod = "GET" then
    oauthDiscoveryResult
  else if event.httpMethod ≠ "POST" then
    transportErrorResult 405 ErrorCode.InvalidRequest "Method Not Allowed"
  else if !contentTypeOk event.headers then
    transportErrorResult 415 ErrorCode.InvalidRequest "Content-Type must be application/json"
  else
    match event.body with
    | none => transportErrorResult 400 ErrorCode.ParseError "Empty request body"
    | some bodyStr =>
      if bodyStr = "" then
        transportErrorResult 400 ErrorCode.ParseError "Empty request body"
      else
        match parse bodyStr with
        | none => transportErrorResult 400 ErrorCode.ParseError "Invalid JSON"
        | some parsedBody =>
          let requests := match parsedBody with
            | Json.arr xs => xs
            | j => [j]
          let responses := requests.map (batchStep server)
          { statusCode := 200,
            headers := [("Content-Type", "application/json"),
                        ("Access-Control-Allow-Origin", "*"),
                        ("Access-Control-Allow-Methods", "POST, OPTIONS")],
            body := HttpBody.json (match parsedBody with
              | Json.arr _ => Json.arr responses
              | _ => responses.headD Json.null) }

/-- The attributes record of a dog fact from the upstream API. -/
structure DogFactAttributes where
  body : String
deriving Repr

/-- One dog fact of the upstream API payload. -/
structure DogFact where
  id : String
  type : String
  attributes : DogFactAttributes
deriving Repr

/-- Pagination links of the upstream API payload (unused by the logic). -/
structure DogFactsLinks where
  next : Option String := none
  prev : Option String := none
deriving Repr

/-- The decoded upstream API payload. -/
structure DogFactsResponse where
  data : List DogFact
  links : DogFactsLinks := {}
deriving Repr

/-- Outcome of the fetch of the dog facts URL at a given limit: the
request promise rejects, or a response arrives that is not ok, or an ok
response with a decoded payload. -/
inductive FetchOutcome where
  | reject : JsThrown → FetchOutcome
  | notOk : Int → FetchOutcome
  | ok : DogFactsResponse → FetchOutcome

/-- Default for a falsy number: JavaScript disjunction of the possibly
absent limit with the literal 5 (absent and zero are falsy). -/
def jsNumOr (v : Option Int) (d : Int) : Int :=
  match v with
  | none => d
  | some n => if n = 0 then d else n

/-- The effective limit computed by the provider:
Math.min of Math.max of the defaulted limit and 1, and 10. -/
def effectiveLimit (v : Option Int) : Int :=
  min (max (jsNumOr v 5) 1) 10

/-- The value of the property access on the optional arguments object:
absent or null arguments short-circuit to absent; a numeric limit field is
read as an integer (this embedding restricts the limit argument to the
JSON integers the tool schema declares). -/
def jsLimitOf (args : Option Json) : Option Int :=
  match args with
  | none => none
  | some Json.null => none
  | some a =>
    match a.lookup "limit" with
    | some (Json.num n) => some n
    | _ => none

/-- Numbered, blank-line separated rendering of the fetched facts. -/
def dogFactsText (facts : List String) : String :=
  "Here " ++ (if facts.length = 1 then "is" else "are") ++ " "
    ++ toString facts.length ++ " dog fact"
    ++ (if facts.length = 1 then "" else "s") ++ ":\n\n"
    ++ String.intercalate "\n\n"
         (facts.enum.map (fun p => toString (p.1 + 1) ++ ". " ++ p.2))

/-- The tool-call result: a single text content block. -/
def dogFactsResult (facts : List String) : Json :=
  Json.obj [("content", Json.arr
    [Json.obj [("type", Json.str "text"), ("text", Json.str (dogFactsText facts))]])]

/-- The initialization result of the dog-facts server. -/
def dogFactsDescribeResult : Json :=
  Json.obj [("protocolVersion", Json.str "2024-11-05"),
            ("capabilities", Json.obj [("tools", Json.obj [])]),
            ("serverInfo", Json.obj [("name", Json.str "dog-facts-server"),
                                     ("version", Json.str "1.0.0")])]

/-- The declared descriptor of the getDogFacts tool. -/
def getDogFactsDescriptor : Json :=
  Json.obj [("name", Json.str "getDogFacts"),
            ("description", Json.str "Get random facts about dogs"),
            ("inputSchema", Json.obj
              [("type", Json.str "object"),
               ("properties", Json.obj
                 [("limit", Json.obj
                   [("type", Json.str "number"),
                    ("description", Json.str
                      "Maximum number of facts to return (default: 5, max: 10)"),
                    ("minimum", Json.num 1),
                    ("maximum", Json.num 10),
                    ("default", Json.num 5)])]),
               ("additionalProperties", Json.bool false)])]

/-- The tools/list result of the dog-facts server. -/
def dogFactsListToolsResult : Json :=
  Json.obj [("tools", Json.arr [getDogFactsDescriptor])]

/-- DogFactsServer.callTool: destructure the params (throwing a TypeError
when params is absent or null, message quotes elided), clamp the limit,
fetch, and render; an unrecognized tool name throws.  The fetch oracle
receives the effective limit interpolated into the request URL. -/
def dogFactsCallTool (fetchOracle : Int → FetchOutcome) (params : Option Json) :
    Except JsThrown Json :=
  match params with
  | none => Except.error (JsThrown.error
      "Cannot destructure property name of params as it is undefined.")
  | some Json.null => Except.error (JsThrown.error
      "Cannot destructure property name of params as it is null.")
  | some p =>
    let nameStr : Option String :=
      match p.lookup "name" with
      | some (Json.str s) => some s
      | _ => none
    if nameStr = some "getDogFacts" then
      let limit := effectiveLimit (jsLimitOf (p.lookup "arguments"))
      match fetchOracle limit with
      | FetchOutcome.reject e => Except.error e
      | FetchOutcome.notOk status =>
        Except.error (JsThrown.error ("HTTP error! status: " ++ toString status))
      | FetchOutcome.ok resp =>
        Except.ok (dogFactsResult (resp.data.map (fun f => f.attributes.body)))
    else
      Except.error (JsThrown.error ("Unknown tool: " ++ jsDisplay (p.lookup "name")))

/-- The concrete dog-facts capability provider, parameterized by the fetch
oracle standing for the outbound network call. -/
def DogFactsServer (fetchOracle : Int → FetchOutcome) : IMCPServer :=
  { describe := Except.ok dogFactsDescribeResult,
    listTools := Except.ok dogFactsListToolsResult,
    callTool := dogFactsCallTool fetchOracle }

/-- A fetch oracle whose request always rejects (stands for an
environment with no network). -/
def noFetch : Int → FetchOutcome :=
  fun _ => FetchOutcome.reject JsThrown.other

/-- Exactly one of the result and error fields is present in a response
envelope. -/
def exactlyOneResultError (j : Json) : Bool :=
  ((j.lookup "result").isSome && (j.lookup "error").isNone)
  || ((j.lookup "result").isNone && (j.lookup "error").isSome)

theorem successEnvelope_lookup_id (jv idv : Option Json) (r : Json) :
    (successEnvelope jv idv r).lookup "id" = idv := by
  cases jv <;> cases idv <;>
    simp [successEnvelope, respEnvelope, optField, Json.lookup, lookupField]

theorem errorEnvelope_lookup_id (jv idv : Option Json) (c : Int) (m : String) :
    (errorEnvelope jv idv c m).lookup "id" = idv := by
  cases jv <;> cases idv <;>
    simp [errorEnvelope, respEnvelope, optField, Json.lookup, lookupField]

theorem successEnvelope_exclusive (jv idv : Option Json) (r : Json) :
    exactlyOneResultError (successEnvelope jv idv r) = true := by
  cases jv <;> cases idv <;>
    simp [exactlyOneResultError, successEnvelope, respEnvelope, optField,
      Json.lookup, lookupField]

theorem errorEnvelope_exclusive (jv idv : Option Json) (c : Int) (m : String) :
    exactlyOneResultError (errorEnvelope jv idv c m) = true := by
  cases jv <;> cases idv <;>
    simp [exactlyOneResultError, errorEnvelope, respEnvelope, optField,
      Json.lookup, lookupField]

/-- The dispatcher echoes the id field of the request into its response
envelope, on every routing and failure path. -/
theorem handleMcpRequest_lookup_id (server : IMCPServer) (req : Json) :
    (handleMcpRequest server req).lookup "id" = req.lookup "id" := by
  simp only [handleMcpRequest]
  repeat' split
  all_goals simp [successEnvelope_lookup_id, errorEnvelope_lookup_id]

/-- The dispatcher produces exactly one of result and error, on every
routing and failure path. -/
theorem handleMcpRequest_exclusive (server : IMCPServer) (req : Json) :
    exactlyOneResultError (handleMcpRequest server req) = true := by
  simp only [handleMcpRequest]
  repeat' split
  all_goals simp [successEnvelope_exclusive, errorEnvelope_exclusive]

/-- The dispatcher always returns a JSON object (never an array). -/
theorem handleMcpRequest_isObj (server : IMCPServer) (req : Json) :
    ∃ fields, handleMcpRequest server req = Json.obj fields := by
  simp only [handleMcpRequest]
  repeat' split
  all_goals exact ⟨_, rfl⟩

/-- The 200 headers of a dispatched POST. -/
def okHeaders : List (String × String) :=
  [("Content-Type", "application/json"),
   ("Access-Control-Allow-Origin", "*"),
   ("Access-Control-Allow-Methods", "POST, OPTIONS")]

theorem gateway_batch_result (server : IMCPServer) (parse : String → Option Json)
    (event : HttpEvent) (bodyStr : String) (xs : List Json)
    (hm : event.httpMethod = "POST") (hct : contentTypeOk event.headers = true)
    (hb : event.body = some bodyStr) (hne : ¬ bodyStr = "")
    (hp : parse bodyStr = some (Json.arr xs)) :
    createApiGatewayHandler server parse event =
      { statusCode := 200, headers := okHeaders,
        body := HttpBody.json (Json.arr (xs.map (batchStep server))) } := by
  simp [createApiGatewayHandler, hm, hct, hb, hne, hp, okHeaders]

theorem gateway_single_result (server : IMCPServer) (parse : String → Option Json)
    (event : HttpEvent) (bodyStr : String) (fields : List (String × Json))
    (hm : event.httpMethod = "POST") (hct : contentTypeOk event.headers = true)
    (hb : event.body = some bodyStr) (hne : ¬ bodyStr = "")
    (hp : parse bodyStr = some (Json.obj fields)) :
    createApiGatewayHandler server parse event =
      { statusCode := 200, headers := okHeaders,
        body := HttpBody.json (batchStep server (Json.obj fields)) } := by
  simp [createApiGatewayHandler, hm, hct, hb, hne, hp, okHeaders]

theorem charsPrefix_self (l : List Char) : charsPrefix l l = true := by
  induction l with
  | nil => rfl
  | cons c cs ih => simp [charsPrefix, ih]

theorem charsInfix_append_self (pre pat : List Char) :
    charsInfix pat (pre ++ pat) = true := by
  induction pre with
  | nil =>
    cases pat with
    | nil => rfl
    | cons c cs => simp [charsInfix, charsPrefix_self]
  | cons c cs ih => simp [charsInfix, ih]

theorem strContains_append_self (s pat : String) :
    strContains (s ++ pat) pat = true := by
  simp [strContains, String.data_append, charsInfix_append_self]

/-- C1: for every valid single request envelope whose method is
initialize, tools/list or tools/call, the response envelope of the
dispatcher carries the same id as the request envelope, and exactly one
of the result and error fields is present, never both, never neither. -/
theorem dispatcher_preserves_id_and_exclusive_outcome
    (server : IMCPServer) (req : Json)
    (hv : isJSONRPCRequest req = true)
    (hm : req.lookup "method" = some (Json.str "initialize")
        ∨ req.lookup "method" = some (Json.str "tools/list")
        ∨ req.lookup "method" = some (Json.str "tools/call")) :
    (handleMcpRequest server req).lookup "id" = req.lookup "id"
    ∧ exactlyOneResultError (handleMcpRequest server req) = true :=
  ⟨handleMcpRequest_lookup_id server req, handleMcpRequest_exclusive server req⟩

/-- A concrete valid initialize request with id 1. -/
def c1Req : Json :=
  Json.obj [("jsonrpc", Json.str "2.0"), ("id", Json.num 1),
            ("method", Json.str "initialize")]

theorem dispatcher_preserves_id_and_exclusive_outcome_witness :
    isJSONRPCRequest c1Req = true
    ∧ ((handleMcpRequest (DogFactsServer noFetch) c1Req).lookup "id" = c1Req.lookup "id"
       ∧ exactlyOneResultError (handleMcpRequest (DogFactsServer noFetch) c1Req) = true) :=
  ⟨by decide,
   dispatcher_preserves_id_and_exclusive_outcome (DogFactsServer noFetch) c1Req
     (by decide) (Or.inl rfl)⟩

/-- C4: a valid tools/call envelope naming an undeclared tool is answered
by the dispatcher with an error envelope carrying the request id, the
internal-error code, and a message mentioning the unknown tool name; the
thrown failure is caught at the dispatcher boundary (the dispatcher is a
total function into envelopes). -/
theorem unknown_tool_internal_error (fetchOracle : Int → FetchOutcome)
    (req : Json) (fields : List (String × Json)) (toolName : String)
    (hv : isJSONRPCRequest req = true)
    (hm : req.lookup "method" = some (Json.str "tools/call"))
    (hp : req.lookup "params" = some (Json.obj fields))
    (hname : lookupField "name" fields = some (Json.str toolName))
    (hneq : ¬ toolName = "getDogFacts") :
    handleMcpRequest (DogFactsServer fetchOracle) req
      = errorEnvelope (req.lookup "jsonrpc") (req.lookup "id")
          ErrorCode.InternalError ("Unknown tool: " ++ toolName)
    ∧ (handleMcpRequest (DogFactsServer fetchOracle) req).lookup "id" = req.lookup "id"
    ∧ strContains ("Unknown tool: " ++ toolName) toolName = true := by
  have h1 : handleMcpRequest (DogFactsServer fetchOracle) req
      = errorEnvelope (req.lookup "jsonrpc") (req.lookup "id")
          ErrorCode.InternalError ("Unknown tool: " ++ toolName) := by
    cases req with
    | obj rfields =>
      simp only [Json.lookup] at hm hp ⊢
      simp [handleMcpRequest, Json.lookup, DogFactsServer, dogFactsCallTool,
        hm, hp, hname, hneq, jsDisplay, jsDisplayVal, JsThrown.describe]
    | _ => simp [isJSONRPCRequest] at hv
  refine ⟨h1, ?_, strContains_append_self "Unknown tool: " toolName⟩
  rw [h1]
  exact errorEnvelope_lookup_id _ _ _ _

/-- The unknown-tool request of the spec: id 7, name doesNotExist. -/
def c4Req : Json :=
  Json.obj [("jsonrpc", Json.str "2.0"), ("id", Json.num 7),
            ("method", Json.str "tools/call"),
            ("params", Json.obj [("name", Json.str "doesNotExist")])]

theorem unknown_tool_internal_error_witness :
    handleMcpRequest (DogFactsServer noFetch) c4Req
      = errorEnvelope (c4Req.lookup "jsonrpc") (c4Req.lookup "id")
          ErrorCode.InternalError ("Unknown tool: " ++ "doesNotExist")
    ∧ (handleMcpRequest (DogFactsServer noFetch) c4Req).lookup "id" = c4Req.lookup "id"
    ∧ strContains ("Unknown tool: " ++ "doesNotExist") "doesNotExist" = true :=
  unknown_tool_internal_error noFetch c4Req [("name", Json.str "doesNotExist")]
    "doesNotExist" (by decide) rfl rfl rfl (by decide)

/-- C5: for a tools/call of getDogFacts, the dispatcher hands the raw
params of the request to the provider unmodified; the provider invokes
the fetch at the effective limit computed from the raw requested limit,
and that effective limit always lies in the range 1..10 (requesting 100
yields 10). -/
theorem tool_call_limit_passthrough_and_clamp (fetchOracle : Int → FetchOutcome)
    (req : Json) (fields : List (String × Json))
    (hm : req.lookup "method" = some (Json.str "tools/call"))
    (hp : req.lookup "params" = some (Json.obj fields))
    (hname : lookupField "name" fields = some (Json.str "getDogFacts")) :
    (∀ server : IMCPServer, handleMcpRequest server req
        = (match server.callTool (req.lookup "params") with
           | Except.ok r => successEnvelope (req.lookup "jsonrpc") (req.lookup "id") r
           | Except.error e => errorEnvelope (req.lookup "jsonrpc") (req.lookup "id")
               ErrorCode.InternalError e.describe))
    ∧ dogFactsCallTool fetchOracle (some (Json.obj fields))
        = (match fetchOracle (effectiveLimit (jsLimitOf (lookupField "arguments" fields))) with
           | FetchOutcome.reject e => Except.error e
           | FetchOutcome.notOk status =>
               Except.error (JsThrown.error ("HTTP error! status: " ++ toString status))
           | FetchOutcome.ok resp =>
               Except.ok (dogFactsResult (resp.data.map (fun f => f.attributes.body))))
    ∧ (∀ v : Option Int, 1 ≤ effectiveLimit v ∧ effectiveLimit v ≤ 10)
    ∧ effectiveLimit (some 100) = 10 := by
  refine ⟨?_, ?_, ?_, by decide⟩
  · intro server
    simp [handleMcpRequest, hm]
  · simp [dogFactsCallTool, Json.lookup, hname]
  · intro v
    exact ⟨le_min (le_max_right _ _) (by norm_num), min_le_right _ _⟩

/-- The limit-100 getDogFacts call of the spec. -/
def c5Fields : List (String × Json) :=
  [("name", Json.str "getDogFacts"),
   ("arguments", Json.obj [("limit", Json.num 100)])]

/-- The limit-100 getDogFacts request of the spec. -/
def c5Req : Json :=
  Json.obj [("jsonrpc", Json.str "2.0"), ("id", Json.num 1),
            ("method", Json.str "tools/call"),
            ("params", Json.obj c5Fields)]

theorem tool_call_limit_passthrough_and_clamp_witness :
    (∀ server : IMCPServer, handleMcpRequest server c5Req
        = (match server.callTool (c5Req.lookup "params") with
           | Except.ok r => successEnvelope (c5Req.lookup "jsonrpc") (c5Req.lookup "id") r
           | Except.error e => errorEnvelope (c5Req.lookup "jsonrpc") (c5Req.lookup "id")
               ErrorCode.InternalError e.describe))
    ∧ dogFactsCallTool noFetch (some (Json.obj c5Fields))
        = (match noFetch (effectiveLimit (jsLimitOf (lookupField "arguments" c5Fields))) with
           | FetchOutcome.reject e => Except.error e
           | FetchOutcome.notOk status =>
               Except.error (JsThrown.error ("HTTP error! status: " ++ toString status))
           | FetchOutcome.ok resp =>
               Except.ok (dogFactsResult (resp.data.map (fun f => f.attributes.body))))
    ∧ (∀ v : Option Int, 1 ≤ effectiveLimit v ∧ effectiveLimit v ≤ 10)
    ∧ effectiveLimit (some 100) = 10 :=
  tool_call_limit_passthrough_and_clamp noFetch c5Req c5Fields rfl rfl rfl

/-- C10: a getDogFacts call whose limit argument is absent or zero uses
the default effective limit 5 (not the schema minimum 1): the default is
applied to the falsy limit before the clamp to the range 1..10. -/
theorem falsy_limit_defaults_to_5 (fetchOracle : Int → FetchOutcome)
    (fields : List (String × Json))
    (hname : lookupField "name" fields = some (Json.str "getDogFacts"))
    (hfalsy : jsLimitOf (lookupField "arguments" fields) = none
            ∨ jsLimitOf (lookupField "arguments" fields) = some 0) :
    dogFactsCallTool fetchOracle (some (Json.obj fields))
      = (match fetchOracle 5 with
         | FetchOutcome.reject e => Except.error e
         | FetchOutcome.notOk status =>
             Except.error (JsThrown.error ("HTTP error! status: " ++ toString status))
         | FetchOutcome.ok resp =>
             Except.ok (dogFactsResult (resp.data.map (fun f => f.attributes.body))))
    ∧ effectiveLimit none = 5 ∧ effectiveLimit (some 0) = 5
    ∧ jsLimitOf none = none
    ∧ (∀ v : Option Int, (v = none ∨ v = some 0) → jsNumOr v 5 = 5) := by
  have heff : effectiveLimit (jsLimitOf (lookupField "arguments" fields)) = 5 := by
    rcases hfalsy with h | h <;> rw [h] <;> decide
  refine ⟨?_, by decide, by decide, rfl, ?_⟩
  · simp [dogFactsCallTool, Json.lookup, hname, heff]
  · rintro v (rfl | rfl) <;> decide

/-- A getDogFacts call with no arguments object at all. -/
def c10Fields : List (String × Json) :=
  [("name", Json.str "getDogFacts")]

theorem falsy_limit_defaults_to_5_witness :
    dogFactsCallTool noFetch (some (Json.obj c10Fields))
      = (match noFetch 5 with
         | FetchOutcome.reject e => Except.error e
         | FetchOutcome.notOk status =>
             Except.error (JsThrown.error ("HTTP error! status: " ++ toString status))
         | FetchOutcome.ok resp =>
             Except.ok (dogFactsResult (resp.data.map (fun f => f.attributes.body))))
    ∧ effectiveLimit none = 5 ∧ effectiveLimit (some 0) = 5
    ∧ jsLimitOf none = none
    ∧ (∀ v : Option Int, (v = none ∨ v = some 0) → jsNumOr v 5 = 5) :=
  falsy_limit_defaults_to_5 noFetch c10Fields rfl (Or.inl rfl)

/-- Every batch element maps to a JSON object envelope. -/
theorem batchStep_isObj (server : IMCPServer) (r : Json) :
    ∃ fields, batchStep server r = Json.obj fields := by
  unfold batchStep
  split
  · exact handleMcpRequest_isObj server r
  · exact ⟨_, rfl⟩

/-- C7: OPTIONS requests are answered 200 with an empty body and the CORS
headers, for every capability provider, parser and event payload (no body
parsing, no authentication involved). -/
theorem options_preflight_200 (server : IMCPServer) (parse : String → Option Json)
    (event : HttpEvent) (hm : event.httpMethod = "OPTIONS") :
    createApiGatewayHandler server parse event = corsPreflightResult
    ∧ corsPreflightResult.statusCode = 200
    ∧ corsPreflightResult.body = HttpBody.str ""
    ∧ lookupHeader "Access-Control-Allow-Origin" corsPreflightResult.headers = some "*"
    ∧ lookupHeader "Access-Control-Allow-Methods" corsPreflightResult.headers
        = some "POST, OPTIONS"
    ∧ lookupHeader "Access-Control-Allow-Headers" corsPreflightResult.headers
        = some "Content-Type, Accept, Authorization, Mcp-Session-Id, Mcp-Protocol-Version"
    ∧ (strContains "Content-Type, Accept, Authorization, Mcp-Session-Id, Mcp-Protocol-Version"
         "Content-Type"
       && strContains "Content-Type, Accept, Authorization, Mcp-Session-Id, Mcp-Protocol-Version"
         "Accept"
       && strContains "Content-Type, Accept, Authorization, Mcp-Session-Id, Mcp-Protocol-Version"
         "Authorization"
       && strContains "Content-Type, Accept, Authorization, Mcp-Session-Id, Mcp-Protocol-Version"
         "Mcp-Session-Id"
       && strContains "Content-Type, Accept, Authorization, Mcp-Session-Id, Mcp-Protocol-Version"
         "Mcp-Protocol-Version") = true := by
  exact ⟨by simp [createApiGatewayHandler, hm], rfl, rfl, rfl, rfl, rfl, by decide⟩

/-- An OPTIONS event with a non-JSON body and no headers. -/
def c7Event : HttpEvent :=
  { httpMethod := "OPTIONS", headers := [], body := some "not json" }

theorem options_preflight_200_witness :
    createApiGatewayHandler (DogFactsServer noFetch) (fun _ => none) c7Event
        = corsPreflightResult
    ∧ corsPreflightResult.statusCode = 200
    ∧ corsPreflightResult.body = HttpBody.str ""
    ∧ lookupHeader "Access-Control-Allow-Origin" corsPreflightResult.headers = some "*"
    ∧ lookupHeader "Access-Control-Allow-Methods" corsPreflightResult.headers
        = some "POST, OPTIONS"
    ∧ lookupHeader "Access-Control-Allow-Headers" corsPreflightResult.headers
        = some "Content-Type, Accept, Authorization, Mcp-Session-Id, Mcp-Protocol-Version"
    ∧ (strContains "Content-Type, Accept, Authorization, Mcp-Session-Id, Mcp-Protocol-Version"
         "Content-Type"
       && strContains "Content-Type, Accept, Authorization, Mcp-Session-Id, Mcp-Protocol-Version"
         "Accept"
       && strContains "Content-Type, Accept, Authorization, Mcp-Session-Id, Mcp-Protocol-Version"
         "Authorization"
       && strContains "Content-Type, Accept, Authorization, Mcp-Session-Id, Mcp-Protocol-Version"
         "Mcp-Session-Id"
       && strContains "Content-Type, Accept, Authorization, Mcp-Session-Id, Mcp-Protocol-Version"
         "Mcp-Protocol-Version") = true :=
  options_preflight_200 (DogFactsServer noFetch) (fun _ => none) c7Event rfl

/-- C8: GET requests are answered 401 with the WWW-Authenticate challenge
containing the invalid_request error and a JSON body describing the
error, for every capability provider, parser and event payload. -/
theorem get_discovery_401 (server : IMCPServer) (parse : String → Option Json)
    (event : HttpEvent) (hm : event.httpMethod = "GET") :
    createApiGatewayHandler server parse event = oauthDiscoveryResult
    ∧ oauthDiscoveryResult.statusCode = 401
    ∧ lookupHeader "WWW-Authenticate" oauthDiscoveryResult.headers
        = some wwwAuthenticateChallenge
    ∧ strContains wwwAuthenticateChallenge "error=\"invalid_request\"" = true
    ∧ oauthDiscoveryResult.body = HttpBody.json (Json.obj
        [("error", Json.str "invalid_request"),
         ("error_description", Json.str "Authentication required")]) := by
  exact ⟨by simp [createApiGatewayHandler, hm], rfl, rfl, by decide, rfl⟩

/-- A GET event. -/
def c8Event : HttpEvent :=
  { httpMethod := "GET", headers := [("Accept", "application/json")], body := none }

theorem get_discovery_401_witness :
    createApiGatewayHandler (DogFactsServer noFetch) (fun _ => none) c8Event
        = oauthDiscoveryResult
    ∧ oauthDiscoveryResult.statusCode = 401
    ∧ lookupHeader "WWW-Authenticate" oauthDiscoveryResult.headers
        = some wwwAuthenticateChallenge
    ∧ strContains wwwAuthenticateChallenge "error=\"invalid_request\"" = true
    ∧ oauthDiscoveryResult.body = HttpBody.json (Json.obj
        [("error", Json.str "invalid_request"),
         ("error_description", Json.str "Authentication required")]) :=
  get_discovery_401 (DogFactsServer noFetch) (fun _ => none) c8Event rfl

/-- C6: a POST whose resolved Content-Type header value does not contain
application/json is answered 415 with an invalid-request error envelope of
id null, for every provider and parser (no body parsing, no dispatch). -/
theorem wrong_content_type_415 (server : IMCPServer) (parse : String → Option Json)
    (event : HttpEvent) (ct : String)
    (hm : event.httpMethod = "POST")
    (hct : contentTypeOf event.headers = some ct)
    (hno : strContains ct "application/json" = false) :
    createApiGatewayHandler server parse event
      = transportErrorResult 415 ErrorCode.InvalidRequest
          "Content-Type must be application/json"
    ∧ (transportErrorResult 415 ErrorCode.InvalidRequest
          "Content-Type must be application/json").statusCode = 415
    ∧ (transportErrorEnvelope ErrorCode.InvalidRequest
          "Content-Type must be application/json").lookup "id" = some Json.null
    ∧ (transportErrorEnvelope ErrorCode.InvalidRequest
          "Content-Type must be application/json").lookup "error"
        = some (Json.obj [("code", Json.num ErrorCode.InvalidRequest),
                          ("message", Json.str "Content-Type must be application/json")]) := by
  have hbad : contentTypeOk event.headers = false := by
    simp [contentTypeOk, hct, hno]
  exact ⟨by simp [createApiGatewayHandler, hm, hbad], rfl, rfl, rfl⟩

/-- A POST event with a text/plain content type. -/
def c6Event : HttpEvent :=
  { httpMethod := "POST",
    headers := [("Content-Type", "text/plain")],
    body := some "{}" }

theorem wrong_content_type_415_witness :
    createApiGatewayHandler (DogFactsServer noFetch) (fun _ => none) c6Event
      = transportErrorResult 415 ErrorCode.InvalidRequest
          "Content-Type must be application/json"
    ∧ (transportErrorResult 415 ErrorCode.InvalidRequest
          "Content-Type must be application/json").statusCode = 415
    ∧ (transportErrorEnvelope ErrorCode.InvalidRequest
          "Content-Type must be application/json").lookup "id" = some Json.null
    ∧ (transportErrorEnvelope ErrorCode.InvalidRequest
          "Content-Type must be application/json").lookup "error"
        = some (Json.obj [("code", Json.num ErrorCode.InvalidRequest),
                          ("message", Json.str "Content-Type must be application/json")]) :=
  wrong_content_type_415 (DogFactsServer noFetch) (fun _ => none) c6Event
    "text/plain" rfl rfl (by decide)

/-- C9: a POST with an acceptable content type and a nonempty body that
parses as JSON is answered 200 with JSON content type and the CORS origin
header, whatever the parsed value and however its elements fare. -/
theorem parsed_post_always_200 (server : IMCPServer) (parse : String → Option Json)
    (event : HttpEvent) (bodyStr : String) (j : Json)
    (hm : event.httpMethod = "POST") (hct : contentTypeOk event.headers = true)
    (hb : event.body = some bodyStr) (hne : ¬ bodyStr = "")
    (hp : parse bodyStr = some j) :
    (createApiGatewayHandler server parse event).statusCode = 200
    ∧ lookupHeader "Content-Type" (createApiGatewayHandler server parse event).headers
        = some "application/json"
    ∧ lookupHeader "Access-Control-Allow-Origin"
        (createApiGatewayHandler server parse event).headers = some "*" := by
  refine ⟨?_, ?_, ?_⟩ <;>
    simp [createApiGatewayHandler, hm, hct, hb, hne, hp, lookupHeader]

/-- A POST event whose body is a batch of one invalid element. -/
def c9Event : HttpEvent :=
  { httpMethod := "POST",
    headers := [("content-type", "application/json")],
    body := some "[0]" }

/-- A parser for the c9 body. -/
def c9Parse : String → Option Json :=
  fun s => if s = "[0]" then some (Json.arr [Json.num 0]) else none

theorem parsed_post_always_200_witness :
    (createApiGatewayHandler (DogFactsServer noFetch) c9Parse c9Event).statusCode = 200
    ∧ lookupHeader "Content-Type"
        (createApiGatewayHandler (DogFactsServer noFetch) c9Parse c9Event).headers
        = some "application/json"
    ∧ lookupHeader "Access-Control-Allow-Origin"
        (createApiGatewayHandler (DogFactsServer noFetch) c9Parse c9Event).headers
        = some "*" :=
  parsed_post_always_200 (DogFactsServer noFetch) c9Parse c9Event "[0]"
    (Json.arr [Json.num 0]) rfl (by decide) rfl (by decide) rfl

/-- C3: a batch element failing structural validation is answered, at its
own position, by the synthesized invalid-request envelope of id null,
identically for every capability provider (so neither the dispatcher nor
the provider is consulted for it), while every other position is a
function of its own element alone. -/
theorem invalid_batch_element_isolated
    (server : IMCPServer) (parse : String → Option Json) (event : HttpEvent)
    (bodyStr : String) (xs : List Json) (i : Nat)
    (hm : event.httpMethod = "POST") (hct : contentTypeOk event.headers = true)
    (hb : event.body = some bodyStr) (hne : ¬ bodyStr = "")
    (hp : parse bodyStr = some (Json.arr xs))
    (hi : i < xs.length) (hinv : isJSONRPCRequest xs[i] = false) :
    ∃ rs, (createApiGatewayHandler server parse event).body = HttpBody.json (Json.arr rs)
      ∧ rs[i]? = some invalidRequestEnvelope
      ∧ invalidRequestEnvelope.lookup "id" = some Json.null
      ∧ invalidRequestEnvelope.lookup "error"
          = some (Json.obj [("code", Json.num ErrorCode.InvalidRequest),
                            ("message", Json.str "Invalid JSON-RPC request")])
      ∧ (∀ s2 : IMCPServer, (xs.map (batchStep s2))[i]? = some invalidRequestEnvelope)
      ∧ (∀ k, ¬ k = i → (xs.map (batchStep server))[k]? = (xs[k]?).map (batchStep server)) := by
  have hstep : ∀ s2 : IMCPServer, (xs.map (batchStep s2))[i]? = some invalidRequestEnvelope := by
    intro s2
    simp [List.getElem?_map, List.getElem?_eq_getElem hi, batchStep, hinv]
  refine ⟨xs.map (batchStep server), ?_, hstep server, rfl, rfl, hstep, ?_⟩
  · rw [gateway_batch_result server parse event bodyStr xs hm hct hb hne hp]
  · intro k _
    simp [List.getElem?_map]

/-- A two-element batch: an invalid element then a valid tools/list. -/
def c3Batch : List Json :=
  [Json.str "nonsense",
   Json.obj [("jsonrpc", Json.str "2.0"), ("id", Json.num 2),
             ("method", Json.str "tools/list")]]

/-- A parser for the c3 batch body. -/
def c3Parse : String → Option Json :=
  fun s => if s = "c3" then some (Json.arr c3Batch) else none

/-- The POST event carrying the c3 batch. -/
def c3Event : HttpEvent :=
  { httpMethod := "POST",
    headers := [("content-type", "application/json")],
    body := some "c3" }

theorem invalid_batch_element_isolated_witness :
    ∃ rs, (createApiGatewayHandler (DogFactsServer noFetch) c3Parse c3Event).body
        = HttpBody.json (Json.arr rs)
      ∧ rs[0]? = some invalidRequestEnvelope
      ∧ invalidRequestEnvelope.lookup "id" = some Json.null
      ∧ invalidRequestEnvelope.lookup "error"
          = some (Json.obj [("code", Json.num ErrorCode.InvalidRequest),
                            ("message", Json.str "Invalid JSON-RPC request")])
      ∧ (∀ s2 : IMCPServer, (c3Batch.map (batchStep s2))[0]? = some invalidRequestEnvelope)
      ∧ (∀ k, ¬ k = 0 → (c3Batch.map (batchStep (DogFactsServer noFetch)))[k]?
            = (c3Batch[k]?).map (batchStep (DogFactsServer noFetch))) :=
  invalid_batch_element_isolated (DogFactsServer noFetch) c3Parse c3Event
    "c3" c3Batch 0 rfl (by decide) rfl (by decide) rfl (by decide) (by decide)

/-- A batch element carrying an id but no method: structurally invalid. -/
def c2Elem : Json :=
  Json.obj [("jsonrpc", Json.str "2.0"), ("id", Json.num 7)]

/-- The raw body text of the c2 batch (its JSON reading is supplied by
the parsing oracle c2Parse). -/
def c2Body : String := "c2-batch-body"

/-- A parser for the c2 body. -/
def c2Parse : String → Option Json :=
  fun s => if s = c2Body then some (Json.arr [c2Elem]) else none

/-- The POST event carrying the c2 batch. -/
def c2Event : HttpEvent :=
  { httpMethod := "POST",
    headers := [("content-type", "application/json")],
    body := some c2Body }

/-- C2 counterexample: a one-element batch whose element carries id 7 but
fails structural validation is answered by an envelope of id null, so the
response element does not carry the id of the request element at its
position. -/
theorem batch_invalid_element_id_mismatch :
    (createApiGatewayHandler (DogFactsServer noFetch) c2Parse c2Event).body
      = HttpBody.json (Json.arr [invalidRequestEnvelope])
    ∧ c2Elem.lookup "id" = some (Json.num 7)
    ∧ invalidRequestEnvelope.lookup "id" = some Json.null
    ∧ invalidRequestEnvelope.lookup "id" ≠ c2Elem.lookup "id" := by
  refine ⟨rfl, rfl, rfl, ?_⟩
  intro h
  simp [invalidRequestEnvelope, transportErrorEnvelope, Json.lookup, lookupField,
    c2Elem] at h

/-- C2 amended: a POST body parsing as an array of N elements is answered
by an array of exactly N envelopes in matching positions; a position
holding a structurally valid request is answered with the id of that
request,
and a position failing validation is answered with the synthesized
invalid-request envelope (of id null); a body parsing as a single
non-array object is answered by a single non-array envelope. -/
theorem batch_shape_and_valid_id_correspondence
    (server : IMCPServer) (parse : String → Option Json)
    (event : HttpEvent) (bodyStr : String)
    (hm : event.httpMethod = "POST") (hct : contentTypeOk event.headers = true)
    (hb : event.body = some bodyStr) (hne : ¬ bodyStr = "") :
    (∀ xs, parse bodyStr = some (Json.arr xs) →
      ∃ rs, (createApiGatewayHandler server parse event).body
          = HttpBody.json (Json.arr rs)
        ∧ rs.length = xs.length
        ∧ ∀ i, i < xs.length → ∃ req resp,
            xs[i]? = some req ∧ rs[i]? = some resp
            ∧ (isJSONRPCRequest req = true → resp.lookup "id" = req.lookup "id")
            ∧ (isJSONRPCRequest req = false → resp = invalidRequestEnvelope))
    ∧ (∀ fields, parse bodyStr = some (Json.obj fields) →
        ∃ respFields, (createApiGatewayHandler server parse event).body
            = HttpBody.json (Json.obj respFields)) := by
  constructor
  · intro xs hp
    refine ⟨xs.map (batchStep server), ?_, by simp, ?_⟩
    · rw [gateway_batch_result server parse event bodyStr xs hm hct hb hne hp]
    · intro i hi
      refine ⟨xs[i], batchStep server xs[i],
        List.getElem?_eq_getElem hi, ?_, ?_, ?_⟩
      · simp [List.getElem?_map, List.getElem?_eq_getElem hi]
      · intro hvalid
        simp [batchStep, hvalid, handleMcpRequest_lookup_id]
      · intro hinvalid
        simp [batchStep, hinvalid]
  · intro fields hp
    obtain ⟨rf, hrf⟩ := batchStep_isObj server (Json.obj fields)
    refine ⟨rf, ?_⟩
    rw [gateway_single_result server parse event bodyStr fields hm hct hb hne hp]
    simp [hrf]

theorem batch_shape_and_valid_id_correspondence_witness :
    (∀ xs, c2Parse c2Body = some (Json.arr xs) →
      ∃ rs, (createApiGatewayHandler (DogFactsServer noFetch) c2Parse c2Event).body
          = HttpBody.json (Json.arr rs)
        ∧ rs.length = xs.length
        ∧ ∀ i, i < xs.length → ∃ req resp,
            xs[i]? = some req ∧ rs[i]? = some resp
            ∧ (isJSONRPCRequest req = true → resp.lookup "id" = req.lookup "id")
            ∧ (isJSONRPCRequest req = false → resp = invalidRequestEnvelope))
    ∧ (∀ fields, c2Parse c2Body = some (Json.obj fields) →
        ∃ respFields, (createApiGatewayHandler (DogFactsServer noFetch) c2Parse c2Event).body
            = HttpBody.json (Json.obj respFields)) :=
  batch_shape_and_valid_id_correspondence (DogFactsServer noFetch) c2Parse c2Event
    c2Body rfl (by decide) rfl (by decide)
